import Mathlib

/-!
# ZegoExpress Flutter plugin (Windows): event handler and method handler

Shallow embedding of `windows/internal/ZegoExpressEngineEventHandler.h` and
`windows/internal/ZegoExpressEngineMethodHandler.h`: the two `getInstance` functions, the
constructors and data members, and the tables of declared member functions. The bodies of
the other member functions are in `.cpp` files that are not part of the sources; where a
result needs them they are modelled from the specification and marked as such.

Objects are identified by the ordinal of the constructor run that produced
them (`ObjId`), so "the same instance" is equality of ids and "a handler is
constructed" is an increment of `World.nextId`. `std::cout` is a list of
lines. A `std::shared_ptr` is `Option ObjId` (`none` is the null pointer);
the handler it owns lives in `World.handlers` for as long as some owner
(the static slot or a client copy in `World.held`) refers to it.
-/

namespace Zego

/-- Identity of a constructed object: the ordinal of its constructor run. -/
abbrev ObjId := Nat

/-- Raw SDK pointer (`EXPRESS::IZegoAudioEffectPlayer *` and the like); `0` is `nullptr`. -/
abbrev Ptr := Nat

/-- Members of `ZegoExpressEngineEventHandler`: the one data member is
`std::unique_ptr<flutter::EventSink<...>> eventSink_`; `none` is the null `unique_ptr`. -/
structure ZegoExpressEngineEventHandler where
  eventSink_ : Option Nat
deriving DecidableEq

/-- Members of `ZegoExpressEngineMethodHandler` (header lines 332-334). The two
`std::unordered_map<int, T*>` are association lists read through `mapFind`. -/
structure ZegoExpressEngineMethodHandler where
  audioEffectPlayerMap_ : List (Int × Ptr)
  mediaPlayerMap_ : List (Int × Ptr)
  copyrightedMusic_ : Ptr
deriving DecidableEq

/-- The constructor `ZegoExpressEngineMethodHandler() = default;` with the default member
initialiser `copyrightedMusic_ = nullptr`: both maps are default-constructed, hence empty. -/
def ZegoExpressEngineMethodHandler.new : ZegoExpressEngineMethodHandler :=
  { audioEffectPlayerMap_ := [], mediaPlayerMap_ := [], copyrightedMusic_ := 0 }

/-- Program state seen by the two `getInstance` functions. -/
structure World where
  /-- number of objects constructed so far; the id the next constructor run gets -/
  nextId : ObjId
  /-- lines written to `std::cout` -/
  cout : List String
  /-- the slot `static std::shared_ptr<ZegoExpressEngineEventHandler> m_instance` -/
  m_instance : Option ObjId
  /-- event handlers that are alive, with their members -/
  handlers : List (ObjId × ZegoExpressEngineEventHandler)
  /-- copies of the shared pointer that client code holds -/
  held : List ObjId
  /-- the function-local `static ZegoExpressEngineMethodHandler m_instance`;
  `none` until the first call of `getInstance` initialises it -/
  methodStatic : Option (ObjId × ZegoExpressEngineMethodHandler)
  /-- objects of class `ZegoExpressEngineMethodHandler` made by the implicit copy constructor -/
  methodCopies : List (ObjId × ZegoExpressEngineMethodHandler)
deriving DecidableEq

/-- Program start: nothing constructed, the static shared pointer is null. -/
def World.init : World :=
  { nextId := 0, cout := [], m_instance := none, handlers := [], held := [],
    methodStatic := none, methodCopies := [] }

/-- The expression `new ZegoExpressEngineEventHandler`: the constructor body prints
"event handler create"; `eventSink_` is default-constructed (null). -/
def World.construct (w : World) : ObjId × World :=
  (w.nextId,
   { w with nextId := w.nextId + 1
            cout := w.cout ++ ["event handler create"]
            handlers := (w.nextId, { eventSink_ := none }) :: w.handlers })

/-- Run of `~ZegoExpressEngineEventHandler()`: prints "event handler destroy"
and ends the lifetime of the object. -/
def World.destroy (w : World) (h : ObjId) : World :=
  { w with cout := w.cout ++ ["event handler destroy"]
           handlers := w.handlers.filter (fun e => e.1 != h) }

/-- An owner lets go of handler `h`: the destructor runs when no owner is left. -/
def World.release (w : World) (h : ObjId) : World :=
  if w.m_instance = some h ∨ h ∈ w.held then w else w.destroy h

/-- Assignment to the static slot through the reference `getInstance` returns
(`p = q`, `p.reset()` for `q = none`): the slot takes `q`, then the old owner share is released. -/
def World.assignSlot (w : World) (q : Option ObjId) : World :=
  match w.m_instance with
  | none => { w with m_instance := q }
  | some old => World.release { w with m_instance := q } old

/-- The function `ZegoExpressEngineEventHandler::getInstance` (header lines 29-36):
`if (!m_instance) m_instance = shared_ptr(new ZegoExpressEngineEventHandler); return m_instance;`
The result is the content of the slot the returned reference designates. -/
def ZegoExpressEngineEventHandler.getInstance (w : World) : Option ObjId × World :=
  let w1 :=
    if w.m_instance.isNone then
      let c := w.construct
      c.2.assignSlot (some c.1)
    else w
  (w1.m_instance, w1)

/-- The function `ZegoExpressEngineMethodHandler::getInstance` (header lines 14-18): the
function-local static is default-constructed by the first call that reaches its
declaration; every call returns a reference to that object. -/
def ZegoExpressEngineMethodHandler.getInstance (w : World) : ObjId × World :=
  match w.methodStatic with
  | some s => (s.1, w)
  | none =>
    (w.nextId,
     { w with nextId := w.nextId + 1
              methodStatic := some (w.nextId, ZegoExpressEngineMethodHandler.new) })

/-- Update the members of the event handler `h`. -/
def World.updateHandler (w : World) (h : ObjId)
    (f : ZegoExpressEngineEventHandler → ZegoExpressEngineEventHandler) : World :=
  { w with handlers := w.handlers.map (fun e => if e.1 = h then (e.1, f e.2) else e) }

/-- Members of the live event handler `h`, if it is alive. -/
def World.handler (w : World) (h : ObjId) : Option ZegoExpressEngineEventHandler :=
  (w.handlers.find? (fun e => e.1 == h)).map (fun e => e.2)

/-- Modelled from the spec: the body of `setEventSink` is in the absent
`ZegoExpressEngineEventHandler.cpp`; by its declaration (header line 38) it takes
ownership of the sink it is given, so `eventSink_` becomes that sink. -/
def ZegoExpressEngineEventHandler.setEventSink (sink : Option Nat)
    (_ : ZegoExpressEngineEventHandler) : ZegoExpressEngineEventHandler :=
  { eventSink_ := sink }

/-- Modelled from the spec: the body of `clearEventSink` is in the absent
`ZegoExpressEngineEventHandler.cpp`; by its name it drops the sink. -/
def ZegoExpressEngineEventHandler.clearEventSink
    (_ : ZegoExpressEngineEventHandler) : ZegoExpressEngineEventHandler :=
  { eventSink_ := none }

/-- What client code can do with the two classes. -/
inductive Op where
  /-- call `ZegoExpressEngineEventHandler::getInstance()` -/
  | eventGetInstance
  /-- call `reset()` on the reference the last `getInstance` returned -/
  | eventReset
  /-- assign a handler the client constructed (the constructor is public) to that reference -/
  | eventAssignNew
  /-- copy the shared pointer out of the slot -/
  | eventHold
  /-- drop the most recent copy -/
  | eventRelease
  /-- call `setEventSink(sink)` on the handler in the slot -/
  | setEventSink (sink : Option Nat)
  /-- call `clearEventSink()` on the handler in the slot -/
  | clearEventSink
  /-- the SDK delivers one of the `on*` callbacks to the handler in the slot -/
  | callback
  /-- call `ZegoExpressEngineMethodHandler::getInstance()` -/
  | methodGetInstance
  /-- call any member function on `ZegoExpressEngineMethodHandler::getInstance()`:
  whatever its body, it acts on the members of that object -/
  | methodInvoke (f : ZegoExpressEngineMethodHandler → ZegoExpressEngineMethodHandler)
  /-- copy-construct a `ZegoExpressEngineMethodHandler` from `getInstance()`
  (the implicit copy constructor is public) -/
  | methodCopy

/-- What an operation hands back to the client. -/
inductive Ret where
  | unit
  /-- content of the shared pointer `ZegoExpressEngineEventHandler::getInstance` returned -/
  | event (h : Option ObjId)
  /-- object `ZegoExpressEngineMethodHandler::getInstance` returned a reference to -/
  | method (h : ObjId)
deriving DecidableEq

/-- One client operation. The bodies of the `on*` callbacks are in the absent
`ZegoExpressEngineEventHandler.cpp`; they forward the event to the sink and are taken to leave
the members of the handler as they are. -/
def step (w : World) : Op → Ret × World
  | .eventGetInstance =>
    let r := ZegoExpressEngineEventHandler.getInstance w
    (.event r.1, r.2)
  | .eventReset => (.unit, w.assignSlot none)
  | .eventAssignNew =>
    let c := w.construct
    (.unit, c.2.assignSlot (some c.1))
  | .eventHold =>
    match w.m_instance with
    | some h => (.unit, { w with held := h :: w.held })
    | none => (.unit, w)
  | .eventRelease =>
    match w.held with
    | h :: rest => (.unit, World.release { w with held := rest } h)
    | [] => (.unit, w)
  | .setEventSink sink =>
    match w.m_instance with
    | some h => (.unit, w.updateHandler h (ZegoExpressEngineEventHandler.setEventSink sink))
    | none => (.unit, w)
  | .clearEventSink =>
    match w.m_instance with
    | some h => (.unit, w.updateHandler h ZegoExpressEngineEventHandler.clearEventSink)
    | none => (.unit, w)
  | .callback => (.unit, w)
  | .methodGetInstance =>
    let r := ZegoExpressEngineMethodHandler.getInstance w
    (.method r.1, r.2)
  | .methodInvoke f =>
    let r := ZegoExpressEngineMethodHandler.getInstance w
    (.unit, { r.2 with methodStatic := r.2.methodStatic.map (fun s => (s.1, f s.2)) })
  | .methodCopy =>
    let r := ZegoExpressEngineMethodHandler.getInstance w
    match r.2.methodStatic with
    | some s =>
      (.unit, { r.2 with nextId := r.2.nextId + 1
                         methodCopies := (r.2.nextId, s.2) :: r.2.methodCopies })
    | none => (.unit, r.2)

/-- Run a sequence of client operations, collecting what each hands back. -/
def run (w : World) : List Op → List Ret × World
  | [] => ([], w)
  | op :: ops =>
    let r := step w op
    let rest := run r.2 ops
    (r.1 :: rest.1, rest.2)

/-- The instances that the calls of `ZegoExpressEngineMethodHandler::getInstance` returned. -/
def methodInstances : List Ret → List ObjId
  | [] => []
  | .method h :: rs => h :: methodInstances rs
  | _ :: rs => methodInstances rs

/-- The shared pointers that the calls of `ZegoExpressEngineEventHandler::getInstance` returned. -/
def eventInstances : List Ret → List (Option ObjId)
  | [] => []
  | .event h :: rs => h :: eventInstances rs
  | _ :: rs => eventInstances rs

/-- Identities of the objects of class `ZegoExpressEngineMethodHandler` that exist: the
function-local static once it is initialised, then the copies. -/
def World.methodObjects (w : World) : List ObjId :=
  (w.methodStatic.map (fun s => s.1)).toList ++ w.methodCopies.map (fun s => s.1)

/-- Well-formed heap: every live event handler was produced by an earlier constructor run. -/
def World.WF (w : World) : Prop :=
  ∀ e ∈ w.handlers, e.1 < w.nextId

/-- Whether the operation is a call of `setEventSink`. -/
def Op.isSetEventSink : Op → Bool
  | .setEventSink _ => true
  | _ => false

/-- No live object with identity `h` holds an event sink. -/
def SinkFree (l : List (ObjId × ZegoExpressEngineEventHandler)) (h : ObjId) : Prop :=
  ∀ e ∈ l, e.1 = h → e.2.eventSink_ = none

/-- Requests the method handler declares a member function for
(`ZegoExpressEngineMethodHandler.h`, lines 21-327), in declaration order. -/
inductive Method where
  | getVersion | setPluginVersion | createEngine | createEngineWithProfile | destroyEngine
  | setEngineConfig | setLogConfig | uploadLog | loginRoom | logoutRoom | switchRoom
  | setRoomExtraInfo | startPublishingStream | stopPublishingStream | setStreamExtraInfo
  | startPreview | stopPreview | setAudioConfig | getAudioConfig | mutePublishStreamAudio
  | mutePublishStreamVideo | setCaptureVolume | setAudioCaptureStereoMode | sendSEI
  | enableHardwareEncoder | startPlayingStream | stopPlayingStream | setPlayVolume
  | setAllPlayStreamVolume | mutePlayStreamAudio | muteAllPlayStreamAudio | enableHardwareDecoder
  | muteMicrophone | isMicrophoneMuted | muteSpeaker | isSpeakerMuted | getAudioDeviceList
  | getDefaultAudioDeviceID | useAudioDevice | startSoundLevelMonitor | stopSoundLevelMonitor
  | enableHeadphoneMonitor | setHeadphoneMonitorVolume | enableAEC | setAECMode | enableAGC
  | enableANS | enableTransientANS | setANSMode | setAudioEqualizerGain | setVoiceChangerPreset
  | setVoiceChangerParam | setReverbPreset | setReverbAdvancedParam | setReverbEchoParam
  | enableVirtualStereo | enablePlayStreamVirtualStereo | setElectronicEffects
  | startAudioDataObserver | stopAudioDataObserver | createAudioEffectPlayer
  | destroyAudioEffectPlayer | audioEffectPlayerStart | audioEffectPlayerStop
  | audioEffectPlayerPause | audioEffectPlayerResume | audioEffectPlayerStopAll
  | audioEffectPlayerPauseAll | audioEffectPlayerResumeAll | audioEffectPlayerSeekTo
  | audioEffectPlayerSetVolume | audioEffectPlayerSetVolumeAll | audioEffectPlayerGetTotalDuration
  | audioEffectPlayerGetCurrentProgress | audioEffectPlayerLoadResource
  | audioEffectPlayerUnloadResource | audioEffectPlayerSetPlaySpeed | createMediaPlayer
  | destroyMediaPlayer | mediaPlayerLoadResource | mediaPlayerLoadResourceFromMediaData
  | mediaPlayerLoadResourceWithPosition | mediaPlayerStart | mediaPlayerStop | mediaPlayerPause
  | mediaPlayerResume | mediaPlayerSeekTo | mediaPlayerEnableRepeat | mediaPlayerEnableAux
  | mediaPlayerMuteLocal | mediaPlayerSetVolume | mediaPlayerSetPlayVolume
  | mediaPlayerSetPublishVolume | mediaPlayerSetProgressInterval | mediaPlayerGetPlayVolume
  | mediaPlayerGetPublishVolume | mediaPlayerGetTotalDuration | mediaPlayerGetCurrentProgress
  | mediaPlayerGetAudioTrackCount | mediaPlayerSetAudioTrackIndex
  | mediaPlayerSetVoiceChangerParam | mediaPlayerGetCurrentState | mediaPlayerSetPlaySpeed
  | mediaPlayerEnableSoundLevelMonitor | mediaPlayerEnableFrequencySpectrumMonitor
  | mediaPlayerSetNetWorkResourceMaxCache | mediaPlayerSetNetWorkBufferThreshold
  | mediaPlayerGetNetWorkResourceCache | mediaPlayerEnableAccurateSeek | startMixerTask
  | stopMixerTask | setSEIConfig | setAudioDeviceVolume | getAudioDeviceVolume
  | enableAudioCaptureDevice | enableTrafficControl | startRecordingCapturedData
  | stopRecordingCapturedData | enableCamera | createCopyrightedMusic | destroyCopyrightedMusic
  | copyrightedMusicClearCache | copyrightedMusicDownload | copyrightedMusicGetAverageScore
  | copyrightedMusicGetCacheSize | copyrightedMusicGetCurrentPitch | copyrightedMusicGetDuration
  | copyrightedMusicGetKrcLyricByToken | copyrightedMusicGetLrcLyric
  | copyrightedMusicGetMusicByToken | copyrightedMusicGetPreviousScore
  | copyrightedMusicGetStandardPitch | copyrightedMusicGetTotalScore
  | copyrightedMusicInitCopyrightedMusic | copyrightedMusicPauseScore | copyrightedMusicQueryCache
  | copyrightedMusicRequestAccompaniment | copyrightedMusicRequestAccompanimentClip
  | copyrightedMusicRequestSong | copyrightedMusicResetScore | copyrightedMusicResumeScore
  | copyrightedMusicSendExtendedRequest | copyrightedMusicStartScore | copyrightedMusicStopScore
deriving DecidableEq

/-- The SDK object a request is forwarded to. -/
inductive Target where
  | engine | audioEffectPlayer | mediaPlayer | copyrightedMusic
deriving DecidableEq

/-- Which SDK object a request addresses, read off the header: the block under
"Audio Effects Player" (names `audioEffectPlayer...`), the block under "Media Player"
(names `mediaPlayer...`), the block under "Copyrighted Music" (names `copyrightedMusic...`);
the `create...` and `destroy...` requests and all others go to the engine. -/
def Method.target : Method → Target
  | .audioEffectPlayerStart | .audioEffectPlayerStop | .audioEffectPlayerPause
  | .audioEffectPlayerResume | .audioEffectPlayerStopAll | .audioEffectPlayerPauseAll
  | .audioEffectPlayerResumeAll | .audioEffectPlayerSeekTo | .audioEffectPlayerSetVolume
  | .audioEffectPlayerSetVolumeAll | .audioEffectPlayerGetTotalDuration
  | .audioEffectPlayerGetCurrentProgress | .audioEffectPlayerLoadResource
  | .audioEffectPlayerUnloadResource | .audioEffectPlayerSetPlaySpeed => .audioEffectPlayer
  | .mediaPlayerLoadResource | .mediaPlayerLoadResourceFromMediaData
  | .mediaPlayerLoadResourceWithPosition | .mediaPlayerStart | .mediaPlayerStop
  | .mediaPlayerPause | .mediaPlayerResume | .mediaPlayerSeekTo | .mediaPlayerEnableRepeat
  | .mediaPlayerEnableAux | .mediaPlayerMuteLocal | .mediaPlayerSetVolume
  | .mediaPlayerSetPlayVolume | .mediaPlayerSetPublishVolume | .mediaPlayerSetProgressInterval
  | .mediaPlayerGetPlayVolume | .mediaPlayerGetPublishVolume | .mediaPlayerGetTotalDuration
  | .mediaPlayerGetCurrentProgress | .mediaPlayerGetAudioTrackCount
  | .mediaPlayerSetAudioTrackIndex | .mediaPlayerSetVoiceChangerParam
  | .mediaPlayerGetCurrentState | .mediaPlayerSetPlaySpeed | .mediaPlayerEnableSoundLevelMonitor
  | .mediaPlayerEnableFrequencySpectrumMonitor | .mediaPlayerSetNetWorkResourceMaxCache
  | .mediaPlayerSetNetWorkBufferThreshold | .mediaPlayerGetNetWorkResourceCache
  | .mediaPlayerEnableAccurateSeek => .mediaPlayer
  | .copyrightedMusicClearCache | .copyrightedMusicDownload | .copyrightedMusicGetAverageScore
  | .copyrightedMusicGetCacheSize | .copyrightedMusicGetCurrentPitch
  | .copyrightedMusicGetDuration | .copyrightedMusicGetKrcLyricByToken
  | .copyrightedMusicGetLrcLyric | .copyrightedMusicGetMusicByToken
  | .copyrightedMusicGetPreviousScore | .copyrightedMusicGetStandardPitch
  | .copyrightedMusicGetTotalScore | .copyrightedMusicInitCopyrightedMusic
  | .copyrightedMusicPauseScore | .copyrightedMusicQueryCache
  | .copyrightedMusicRequestAccompaniment | .copyrightedMusicRequestAccompanimentClip
  | .copyrightedMusicRequestSong | .copyrightedMusicResetScore | .copyrightedMusicResumeScore
  | .copyrightedMusicSendExtendedRequest | .copyrightedMusicStartScore
  | .copyrightedMusicStopScore => .copyrightedMusic
  | _ => .engine

/-- One `on*` member declaration of `ZegoExpressEngineEventHandler`. -/
structure CallbackDecl where
  /-- line of the header -/
  line : Nat
  name : String
  /-- whether the declaration carries the `override` specifier -/
  isOverride : Bool
deriving DecidableEq

/-- Every `on*` member function the class declares
(`ZegoExpressEngineEventHandler.h`, lines 45-214), in declaration order. -/
def ZegoExpressEngineEventHandler.callbacks : List CallbackDecl :=
  [CallbackDecl.mk 45 "onDebugError" true,
   CallbackDecl.mk 47 "onApiCalledResult" true,
   CallbackDecl.mk 49 "onEngineStateUpdate" true,
   CallbackDecl.mk 51 "onRoomStateUpdate" true,
   CallbackDecl.mk 53 "onRoomStateChanged" true,
   CallbackDecl.mk 55 "onRoomUserUpdate" true,
   CallbackDecl.mk 57 "onRoomOnlineUserCountUpdate" true,
   CallbackDecl.mk 59 "onRoomStreamUpdate" true,
   CallbackDecl.mk 61 "onRoomStreamExtraInfoUpdate" true,
   CallbackDecl.mk 63 "onRoomExtraInfoUpdate" true,
   CallbackDecl.mk 65 "onPublisherStateUpdate" true,
   CallbackDecl.mk 67 "onPublisherQualityUpdate" true,
   CallbackDecl.mk 69 "onPublisherCapturedAudioFirstFrame" true,
   CallbackDecl.mk 71 "onPublisherStreamEvent" true,
   CallbackDecl.mk 73 "onPlayerStateUpdate" true,
   CallbackDecl.mk 75 "onPlayerQualityUpdate" true,
   CallbackDecl.mk 77 "onPlayerMediaEvent" true,
   CallbackDecl.mk 79 "onPlayerRecvAudioFirstFrame" true,
   CallbackDecl.mk 81 "onPlayerRecvSEI" true,
   CallbackDecl.mk 83 "onPlayerRecvAudioSideInfo" true,
   CallbackDecl.mk 85 "onPlayerStreamEvent" true,
   CallbackDecl.mk 87 "onMixerRelayCDNStateUpdate" true,
   CallbackDecl.mk 89 "onMixerSoundLevelUpdate" true,
   CallbackDecl.mk 91 "onAudioDeviceStateChanged" true,
   CallbackDecl.mk 93 "onAudioDeviceVolumeChanged" false,
   CallbackDecl.mk 95 "onCapturedSoundLevelUpdate" true,
   CallbackDecl.mk 97 "onRemoteSoundLevelUpdate" true,
   CallbackDecl.mk 99 "onDeviceError" true,
   CallbackDecl.mk 101 "onRemoteMicStateUpdate" true,
   CallbackDecl.mk 104 "onNetworkTimeSynchronized" true,
   CallbackDecl.mk 106 "onRoomTokenWillExpire" true,
   CallbackDecl.mk 108 "onPublisherCapturedVideoFirstFrame" true,
   CallbackDecl.mk 110 "onPublisherRenderVideoFirstFrame" true,
   CallbackDecl.mk 112 "onPublisherVideoSizeChanged" true,
   CallbackDecl.mk 114 "onPublisherRelayCDNStateUpdate" true,
   CallbackDecl.mk 116 "onPublisherVideoEncoderChanged" true,
   CallbackDecl.mk 118 "onPlayerRecvVideoFirstFrame" true,
   CallbackDecl.mk 120 "onPlayerRenderVideoFirstFrame" true,
   CallbackDecl.mk 122 "onPlayerVideoSizeChanged" true,
   CallbackDecl.mk 124 "onPlayerLowFpsWarning" true,
   CallbackDecl.mk 126 "onAutoMixerSoundLevelUpdate" true,
   CallbackDecl.mk 128 "onVideoDeviceStateChanged" true,
   CallbackDecl.mk 130 "onCapturedSoundLevelInfoUpdate" true,
   CallbackDecl.mk 132 "onRemoteSoundLevelInfoUpdate" true,
   CallbackDecl.mk 134 "onCapturedAudioSpectrumUpdate" true,
   CallbackDecl.mk 136 "onRemoteAudioSpectrumUpdate" true,
   CallbackDecl.mk 138 "onLocalDeviceExceptionOccurred" true,
   CallbackDecl.mk 140 "onRemoteCameraStateUpdate" true,
   CallbackDecl.mk 142 "onRemoteSpeakerStateUpdate" true,
   CallbackDecl.mk 144 "onAudioVADStateUpdate" true,
   CallbackDecl.mk 146 "onIMRecvBroadcastMessage" true,
   CallbackDecl.mk 148 "onIMRecvBarrageMessage" true,
   CallbackDecl.mk 150 "onIMRecvCustomCommand" true,
   CallbackDecl.mk 152 "onPerformanceStatusUpdate" true,
   CallbackDecl.mk 154 "onNetworkModeChanged" true,
   CallbackDecl.mk 156 "onNetworkSpeedTestError" true,
   CallbackDecl.mk 158 "onNetworkSpeedTestQualityUpdate" true,
   CallbackDecl.mk 160 "onRecvExperimentalAPI" true,
   CallbackDecl.mk 162 "onNetworkQuality" true,
   CallbackDecl.mk 166 "onReceiveRealTimeSequentialData" true,
   CallbackDecl.mk 170 "onRangeAudioMicrophoneStateUpdate" true,
   CallbackDecl.mk 173 "onAudioEffectPlayStateUpdate" true,
   CallbackDecl.mk 176 "onMediaPlayerStateUpdate" true,
   CallbackDecl.mk 178 "onMediaPlayerNetworkEvent" true,
   CallbackDecl.mk 180 "onMediaPlayerPlayingProgress" true,
   CallbackDecl.mk 182 "onMediaPlayerRecvSEI" true,
   CallbackDecl.mk 184 "onMediaPlayerSoundLevelUpdate" true,
   CallbackDecl.mk 186 "onMediaPlayerFrequencySpectrumUpdate" true,
   CallbackDecl.mk 188 "onCapturedAudioData" true,
   CallbackDecl.mk 190 "onPlaybackAudioData" true,
   CallbackDecl.mk 192 "onMixedAudioData" true,
   CallbackDecl.mk 194 "onPlayerAudioData" true,
   CallbackDecl.mk 196 "onCapturedDataRecordStateUpdate" true,
   CallbackDecl.mk 198 "onCapturedDataRecordProgressUpdate" true,
   CallbackDecl.mk 202 "onProcessCapturedAudioData" true,
   CallbackDecl.mk 204 "onProcessCapturedAudioDataAfterUsedHeadphoneMonitor" true,
   CallbackDecl.mk 206 "onProcessRemoteAudioData" true,
   CallbackDecl.mk 208 "onProcessPlaybackAudioData" true,
   CallbackDecl.mk 212 "onDownloadProgressUpdate" true,
   CallbackDecl.mk 214 "onCurrentPitchValueUpdate" true ]

/-- Read of `std::unordered_map<int, T*>::find`: the pointer stored under `id`, if any. -/
def mapFind : List (Int × Ptr) → Int → Option Ptr
  | [], _ => none
  | (k, v) :: m, id => if k = id then some v else mapFind m id

/-- Effect of `std::unordered_map<int, T*>::erase(id)`. -/
def mapErase : List (Int × Ptr) → Int → List (Int × Ptr)
  | [], _ => []
  | (k, v) :: m, id => if k = id then mapErase m id else (k, v) :: mapErase m id

/-- Effect of `map[id] = p`. -/
def mapInsert (m : List (Int × Ptr)) (id : Int) (p : Ptr) : List (Int × Ptr) :=
  (id, p) :: mapErase m id

/-- Modelled from the spec: the SDK binary is absent. Of the SDK only the sets of
handles that are live (created and not yet destroyed) are kept: "opaque handles owned by the
external SDK". By section 3 a handle's "lifecycle is entirely driven by create/destroy calls
forwarded to the SDK", so these sets change through the `create` and `destroy` requests of
`handle` and through nothing else. -/
structure Sdk where
  audioEffectPlayers : List Ptr
  mediaPlayers : List Ptr
deriving DecidableEq

/-- Method handler together with the SDK it forwards to. -/
structure Sys where
  handler : ZegoExpressEngineMethodHandler
  sdk : Sdk
deriving DecidableEq

/-- The method handler as `getInstance` first returns it, next to an SDK with no handle created. -/
def Sys.init : Sys :=
  { handler := ZegoExpressEngineMethodHandler.new,
    sdk := { audioEffectPlayers := [], mediaPlayers := [] } }

/-- A decoded method-call request: which member function, and the integer identifier
taken from the argument map (for a `create...` request the identifier the new handle is
registered under; the results below hold whoever picks it). -/
structure Call where
  method : Method
  id : Int
deriving DecidableEq

/-- Modelled from the spec: what the SDK API hands back to the forwarding call (the SDK is
absent): the integer error code when the API reports one, and the pointer a `create` API
returns (`0` when it returns `nullptr`). -/
structure SdkReply where
  errorCode : Option Int
  handle : Ptr
deriving DecidableEq

/-- Modelled from the spec: what reaches the caller through `flutter::MethodResult`
(the encoding is in the absent `ZegoExpressEngineMethodHandler.cpp`): the error code
delivered, if one is delivered. -/
structure MethodResult where
  errorCode : Option Int
deriving DecidableEq

/-- Modelled from the spec: whether the request reaches an SDK API. A request that addresses
a player is "looked up" in the identifier-to-pointer map and can be forwarded only through the
pointer found there; a copyrighted-music request goes through `copyrightedMusic_`; every other
request goes to the engine. -/
def invokesSdk (h : ZegoExpressEngineMethodHandler) (c : Call) : Bool :=
  match c.method with
  | .destroyAudioEffectPlayer => (mapFind h.audioEffectPlayerMap_ c.id).isSome
  | .destroyMediaPlayer => (mapFind h.mediaPlayerMap_ c.id).isSome
  | .destroyCopyrightedMusic => h.copyrightedMusic_ != 0
  | m =>
    match m.target with
    | .engine => true
    | .audioEffectPlayer => (mapFind h.audioEffectPlayerMap_ c.id).isSome
    | .mediaPlayer => (mapFind h.mediaPlayerMap_ c.id).isSome
    | .copyrightedMusic => h.copyrightedMusic_ != 0

/-- Modelled from the spec: the bodies of the member functions are in the absent
`ZegoExpressEngineMethodHandler.cpp`. Section 7: an error code the SDK returns is "passed
through unchanged to the caller". -/
def deliver (h : ZegoExpressEngineMethodHandler) (c : Call) (r : SdkReply) : MethodResult :=
  if invokesSdk h c then { errorCode := r.errorCode } else { errorCode := none }

/-- Modelled from the spec: the bodies of the member functions are in the absent
`ZegoExpressEngineMethodHandler.cpp`. Section 3: "lifecycle is entirely driven by
create/destroy calls forwarded to the SDK". A `create` request forwards to the SDK and, when
the SDK returns a handle, registers it under the identifier; a `destroy` request looks the
identifier up, has the SDK destroy the handle found and erases the identifier; no other
request touches the maps or the SDK's live handles. -/
def handle (s : Sys) (c : Call) (r : SdkReply) : Sys :=
  match c.method with
  | .createAudioEffectPlayer =>
    if r.handle = 0 then s
    else
      { handler := { s.handler with
          audioEffectPlayerMap_ := mapInsert s.handler.audioEffectPlayerMap_ c.id r.handle },
        sdk := { s.sdk with audioEffectPlayers := r.handle :: s.sdk.audioEffectPlayers } }
  | .destroyAudioEffectPlayer =>
    match mapFind s.handler.audioEffectPlayerMap_ c.id with
    | some p =>
      { handler := { s.handler with
          audioEffectPlayerMap_ := mapErase s.handler.audioEffectPlayerMap_ c.id },
        sdk := { s.sdk with
          audioEffectPlayers := s.sdk.audioEffectPlayers.filter (fun q => q != p) } }
    | none => s
  | .createMediaPlayer =>
    if r.handle = 0 then s
    else
      { handler := { s.handler with
          mediaPlayerMap_ := mapInsert s.handler.mediaPlayerMap_ c.id r.handle },
        sdk := { s.sdk with mediaPlayers := r.handle :: s.sdk.mediaPlayers } }
  | .destroyMediaPlayer =>
    match mapFind s.handler.mediaPlayerMap_ c.id with
    | some p =>
      { handler := { s.handler with
          mediaPlayerMap_ := mapErase s.handler.mediaPlayerMap_ c.id },
        sdk := { s.sdk with mediaPlayers := s.sdk.mediaPlayers.filter (fun q => q != p) } }
    | none => s
  | .createCopyrightedMusic =>
    { s with handler := { s.handler with copyrightedMusic_ := r.handle } }
  | .destroyCopyrightedMusic =>
    { s with handler := { s.handler with copyrightedMusic_ := 0 } }
  | _ => s

/-- The invariant of section 3 on one map: every identifier is absent or maps to a live
(non-null, not yet destroyed) SDK-owned pointer. -/
def LiveOrAbsent (m : List (Int × Ptr)) (live : List Ptr) : Prop :=
  ∀ id p, mapFind m id = some p → p ≠ 0 ∧ p ∈ live

/-- The invariant on `audioEffectPlayerMap_` and `mediaPlayerMap_`. -/
def Inv (s : Sys) : Prop :=
  LiveOrAbsent s.handler.audioEffectPlayerMap_ s.sdk.audioEffectPlayers ∧
  LiveOrAbsent s.handler.mediaPlayerMap_ s.sdk.mediaPlayers

end Zego

namespace Zego

/-! ## The event handler's static slot -/

theorem getInstance_of_none (w : World) (hw : w.m_instance = none) :
    ZegoExpressEngineEventHandler.getInstance w =
      (some w.nextId,
       { w with nextId := w.nextId + 1
                cout := w.cout ++ ["event handler create"]
                handlers := (w.nextId, { eventSink_ := none }) :: w.handlers
                m_instance := some w.nextId }) := by
  simp [ZegoExpressEngineEventHandler.getInstance, World.construct, World.assignSlot, hw]

theorem getInstance_of_some (w : World) (h : ObjId) (hw : w.m_instance = some h) :
    ZegoExpressEngineEventHandler.getInstance w = (some h, w) := by
  simp [ZegoExpressEngineEventHandler.getInstance, hw]

/-- C2: from every state of the static slot `m_instance`, `getInstance` returns a non-null
shared pointer and leaves `m_instance` non-null (the result is the content of the slot); when
the slot was empty, exactly one handler is constructed (one fresh object, one
"event handler create" line) and it is the one stored in the slot. -/
theorem eventHandler_getInstance_nonnull (w : World) :
    (ZegoExpressEngineEventHandler.getInstance w).1.isSome = true ∧
    (ZegoExpressEngineEventHandler.getInstance w).2.m_instance.isSome = true ∧
    (ZegoExpressEngineEventHandler.getInstance w).1 =
      (ZegoExpressEngineEventHandler.getInstance w).2.m_instance ∧
    (w.m_instance = none →
      (ZegoExpressEngineEventHandler.getInstance w).2.m_instance = some w.nextId ∧
      (ZegoExpressEngineEventHandler.getInstance w).2.nextId = w.nextId + 1 ∧
      (ZegoExpressEngineEventHandler.getInstance w).2.cout =
        w.cout ++ ["event handler create"] ∧
      (ZegoExpressEngineEventHandler.getInstance w).2.handlers =
        (w.nextId, { eventSink_ := none }) :: w.handlers) := by
  cases hw : w.m_instance with
  | none => simp [getInstance_of_none w hw]
  | some h => simp [getInstance_of_some w h hw, hw]

/-- Witness for C2 at program start: the slot is empty, the call constructs handler `0`,
stores it and prints one line. -/
theorem eventHandler_getInstance_nonnull_witness :
    World.init.m_instance = none ∧
    (ZegoExpressEngineEventHandler.getInstance World.init).2.m_instance = some 0 ∧
    (ZegoExpressEngineEventHandler.getInstance World.init).2.nextId = 1 ∧
    (ZegoExpressEngineEventHandler.getInstance World.init).2.cout = ["event handler create"] ∧
    (ZegoExpressEngineEventHandler.getInstance World.init).2.handlers =
      [(0, { eventSink_ := none })] :=
  ⟨rfl, (eventHandler_getInstance_nonnull World.init).2.2.2 rfl⟩

/-- C3: when `m_instance` already holds a handler, `getInstance` returns that handler and
changes nothing: no object is constructed, no line is printed, the slot is as before. Hence a
second call right after any call returns what the first returned and changes nothing. -/
theorem eventHandler_getInstance_idempotent (w : World) (h : ObjId)
    (hw : w.m_instance = some h) :
    (ZegoExpressEngineEventHandler.getInstance w).1 = some h ∧
    (ZegoExpressEngineEventHandler.getInstance w).2 = w ∧
    (ZegoExpressEngineEventHandler.getInstance w).2.nextId = w.nextId ∧
    (ZegoExpressEngineEventHandler.getInstance w).2.cout = w.cout ∧
    (ZegoExpressEngineEventHandler.getInstance w).2.m_instance = some h ∧
    (∀ w0 : World,
      ZegoExpressEngineEventHandler.getInstance
          (ZegoExpressEngineEventHandler.getInstance w0).2 =
        ((ZegoExpressEngineEventHandler.getInstance w0).1,
         (ZegoExpressEngineEventHandler.getInstance w0).2)) := by
  refine ⟨?_, ?_, ?_, ?_, ?_, ?_⟩
  · simp [getInstance_of_some w h hw]
  · simp [getInstance_of_some w h hw]
  · simp [getInstance_of_some w h hw]
  · simp [getInstance_of_some w h hw]
  · simp [getInstance_of_some w h hw, hw]
  · intro w0
    cases h0 : w0.m_instance with
    | none =>
      rw [getInstance_of_none w0 h0]
      exact getInstance_of_some _ _ rfl
    | some k =>
      rw [getInstance_of_some w0 k h0]
      exact getInstance_of_some _ _ h0

/-- Witness for C3: after one call at program start the slot holds handler `0`; the next
call returns handler `0` and prints nothing more. -/
theorem eventHandler_getInstance_idempotent_witness :
    (ZegoExpressEngineEventHandler.getInstance World.init).2.m_instance = some 0 ∧
    (ZegoExpressEngineEventHandler.getInstance
      (ZegoExpressEngineEventHandler.getInstance World.init).2).1 = some 0 ∧
    (ZegoExpressEngineEventHandler.getInstance
      (ZegoExpressEngineEventHandler.getInstance World.init).2).2.cout =
        ["event handler create"] :=
  ⟨rfl,
   (eventHandler_getInstance_idempotent
      (ZegoExpressEngineEventHandler.getInstance World.init).2 0 rfl).1,
   (eventHandler_getInstance_idempotent
      (ZegoExpressEngineEventHandler.getInstance World.init).2 0 rfl).2.2.2.1⟩

/-! ## The method handler's function-local static -/

/-- Identity of the object in the function-local static, once it is initialised. -/
theorem methodGetInstance_of_some (w : World)
    (s : ObjId × ZegoExpressEngineMethodHandler) (hw : w.methodStatic = some s) :
    ZegoExpressEngineMethodHandler.getInstance w = (s.1, w) := by
  simp [ZegoExpressEngineMethodHandler.getInstance, hw]

theorem methodGetInstance_static (w : World) :
    ∃ m, (ZegoExpressEngineMethodHandler.getInstance w).2.methodStatic =
      some ((ZegoExpressEngineMethodHandler.getInstance w).1, m) := by
  cases hw : w.methodStatic with
  | none =>
    exact ⟨ZegoExpressEngineMethodHandler.new,
      by simp [ZegoExpressEngineMethodHandler.getInstance, hw]⟩
  | some s => exact ⟨s.2, by simp [ZegoExpressEngineMethodHandler.getInstance, hw]⟩

theorem run_methodGetInstance_of_some (n : Nat) (w : World)
    (s : ObjId × ZegoExpressEngineMethodHandler) (hw : w.methodStatic = some s) :
    run w (List.replicate n Op.methodGetInstance) = (List.replicate n (Ret.method s.1), w) := by
  induction n with
  | zero => rfl
  | succ n ih =>
    simp [List.replicate_succ, run, step, methodGetInstance_of_some w s hw, ih]

@[simp]
theorem release_methodStatic (w : World) (h : ObjId) :
    (w.release h).methodStatic = w.methodStatic := by
  unfold World.release World.destroy
  split <;> rfl

@[simp]
theorem assignSlot_methodStatic (w : World) (q : Option ObjId) :
    (w.assignSlot q).methodStatic = w.methodStatic := by
  unfold World.assignSlot
  split <;> simp

/-- An operation that hands back a method-handler instance hands back the object that is
in the function-local static afterwards. -/
theorem step_method_ret (w : World) (op : Op) (j : ObjId)
    (hr : (step w op).1 = Ret.method j) :
    ∃ m, (step w op).2.methodStatic = some (j, m) := by
  cases op <;> simp only [step] at hr ⊢
  case methodGetInstance =>
    obtain ⟨m, hm⟩ := methodGetInstance_static w
    cases hr
    exact ⟨m, hm⟩
  all_goals first
    | exact absurd hr (by simp)
    | (split at hr <;> exact absurd hr (by simp))

/-- No operation replaces the object in the function-local static. -/
theorem step_static_kept (w : World) (op : Op) (i : ObjId) (m : ZegoExpressEngineMethodHandler)
    (hw : w.methodStatic = some (i, m)) :
    ∃ m1, (step w op).2.methodStatic = some (i, m1) := by
  cases op <;> simp only [step]
  case eventGetInstance =>
    refine ⟨m, ?_⟩
    unfold ZegoExpressEngineEventHandler.getInstance
    simp only
    split <;> simp [World.construct, hw]
  case eventReset => exact ⟨m, by simp [hw]⟩
  case eventAssignNew => exact ⟨m, by simp [World.construct, hw]⟩
  case eventHold => exact ⟨m, by split <;> simp [hw]⟩
  case eventRelease => exact ⟨m, by split <;> simp [hw]⟩
  case setEventSink sink => exact ⟨m, by split <;> simp [World.updateHandler, hw]⟩
  case clearEventSink => exact ⟨m, by split <;> simp [World.updateHandler, hw]⟩
  case callback => exact ⟨m, hw⟩
  case methodGetInstance => exact ⟨m, by simp [methodGetInstance_of_some w _ hw, hw]⟩
  case methodInvoke f => exact ⟨f m, by simp [methodGetInstance_of_some w _ hw, hw]⟩
  case methodCopy => exact ⟨m, by simp [methodGetInstance_of_some w _ hw, hw]⟩

theorem run_static_kept (ops : List Op) (w : World) (i : ObjId)
    (m : ZegoExpressEngineMethodHandler) (hw : w.methodStatic = some (i, m)) :
    ∀ j ∈ methodInstances (run w ops).1, j = i := by
  induction ops generalizing w m with
  | nil => intro j hj; simp [run, methodInstances] at hj
  | cons op ops ih =>
    obtain ⟨m1, hm1⟩ := step_static_kept w op i m hw
    intro j hj
    simp only [run] at hj
    cases hr : (step w op).1 with
    | unit =>
      rw [hr] at hj
      exact ih _ m1 hm1 j (by simpa [methodInstances] using hj)
    | event e =>
      rw [hr] at hj
      exact ih _ m1 hm1 j (by simpa [methodInstances] using hj)
    | method k =>
      rw [hr] at hj
      obtain ⟨m2, hm2⟩ := step_method_ret w op k hr
      have hk : k = i := by
        rw [hm1] at hm2
        simp at hm2
        exact hm2.1.symm
      simp only [methodInstances, List.mem_cons] at hj
      rcases hj with hj | hj
      · exact hj.trans hk
      · exact ih _ m1 hm1 j hj

theorem run_method_same (ops : List Op) (w : World) :
    ∃ i, ∀ j ∈ methodInstances (run w ops).1, j = i := by
  induction ops generalizing w with
  | nil => exact ⟨0, by intro j hj; simp [run, methodInstances] at hj⟩
  | cons op ops ih =>
    cases hs : (step w op).2.methodStatic with
    | some s =>
      refine ⟨s.1, ?_⟩
      intro j hj
      simp only [run] at hj
      cases hr : (step w op).1 with
      | unit =>
        rw [hr] at hj
        exact run_static_kept ops _ s.1 s.2 hs j (by simpa [methodInstances] using hj)
      | event e =>
        rw [hr] at hj
        exact run_static_kept ops _ s.1 s.2 hs j (by simpa [methodInstances] using hj)
      | method k =>
        rw [hr] at hj
        obtain ⟨m2, hm2⟩ := step_method_ret w op k hr
        have hk : k = s.1 := by
          rw [hs] at hm2
          simp at hm2
          rw [hm2]
        simp only [methodInstances, List.mem_cons] at hj
        rcases hj with hj | hj
        · exact hj.trans hk
        · exact run_static_kept ops _ s.1 s.2 hs j hj
    | none =>
      obtain ⟨i, hi⟩ := ih (step w op).2
      refine ⟨i, ?_⟩
      intro j hj
      simp only [run] at hj
      cases hr : (step w op).1 with
      | unit =>
        rw [hr] at hj
        exact hi j (by simpa [methodInstances] using hj)
      | event e =>
        rw [hr] at hj
        exact hi j (by simpa [methodInstances] using hj)
      | method k =>
        obtain ⟨m2, hm2⟩ := step_method_ret w op k hr
        rw [hs] at hm2
        exact absurd hm2 (by simp)

/-- C1 (amended): for every number of calls of `ZegoExpressEngineMethodHandler::getInstance`
in a row, from every program state, every call returns the instance the first call returns,
and that instance is the object in the function-local static; the state after all of them is
the state after the first. When the static is not yet initialised the first call
default-constructs it (one new object); when it is, the call returns the object it holds and
changes nothing. No call of `getInstance` makes a copy of the handler. -/
theorem methodHandler_getInstance_singleton (w : World) (n : Nat) :
    run w (List.replicate (n + 1) Op.methodGetInstance) =
      (List.replicate (n + 1) (Ret.method (ZegoExpressEngineMethodHandler.getInstance w).1),
       (ZegoExpressEngineMethodHandler.getInstance w).2) ∧
    (ZegoExpressEngineMethodHandler.getInstance w).2.methodStatic.map (fun s => s.1) =
      some (ZegoExpressEngineMethodHandler.getInstance w).1 ∧
    (w.methodStatic = none →
      ZegoExpressEngineMethodHandler.getInstance w =
        (w.nextId,
         { w with nextId := w.nextId + 1
                  methodStatic := some (w.nextId, ZegoExpressEngineMethodHandler.new) })) ∧
    (∀ s, w.methodStatic = some s →
      ZegoExpressEngineMethodHandler.getInstance w = (s.1, w)) ∧
    (ZegoExpressEngineMethodHandler.getInstance w).2.nextId ≤ w.nextId + 1 ∧
    (ZegoExpressEngineMethodHandler.getInstance
        (ZegoExpressEngineMethodHandler.getInstance w).2).2.nextId =
      (ZegoExpressEngineMethodHandler.getInstance w).2.nextId ∧
    (ZegoExpressEngineMethodHandler.getInstance w).2.methodCopies = w.methodCopies := by
  obtain ⟨m, hm⟩ := methodGetInstance_static w
  refine ⟨?_, ?_, ?_, ?_, ?_, ?_, ?_⟩
  · rw [List.replicate_succ]
    simp only [run, step]
    rw [run_methodGetInstance_of_some n _ _ hm]
    simp [List.replicate_succ]
  · rw [hm]
    rfl
  · intro hw
    simp [ZegoExpressEngineMethodHandler.getInstance, hw]
  · intro s hw
    exact methodGetInstance_of_some w s hw
  · cases hw : w.methodStatic <;> simp [ZegoExpressEngineMethodHandler.getInstance, hw]
  · rw [methodGetInstance_of_some _ _ hm]
  · cases hw : w.methodStatic <;> simp [ZegoExpressEngineMethodHandler.getInstance, hw]

/-- Witness for C1: at program start the static is not initialised and the first call
constructs object `0` into it; in the state after that call the static holds object `0` and a
further call returns object `0` and changes nothing. -/
theorem methodHandler_getInstance_singleton_witness :
    World.init.methodStatic = none ∧
    ZegoExpressEngineMethodHandler.getInstance World.init =
      (0, { World.init with
              nextId := 1
              methodStatic := some (0, ZegoExpressEngineMethodHandler.new) }) ∧
    (ZegoExpressEngineMethodHandler.getInstance World.init).2.methodStatic =
      some (0, ZegoExpressEngineMethodHandler.new) ∧
    ZegoExpressEngineMethodHandler.getInstance
        (ZegoExpressEngineMethodHandler.getInstance World.init).2 =
      (0, (ZegoExpressEngineMethodHandler.getInstance World.init).2) :=
  ⟨rfl,
   (methodHandler_getInstance_singleton World.init 0).2.2.1 rfl,
   rfl,
   (methodHandler_getInstance_singleton
      (ZegoExpressEngineMethodHandler.getInstance World.init).2 0).2.2.2.1
      (0, ZegoExpressEngineMethodHandler.new) rfl⟩

/-- Counterexample to C1 as stated: the private constructor is not the only one. After
`getInstance` and one copy-construction from the reference it returns (the implicit copy
constructor is public), two objects of the class exist: object `0` in the function-local
static and its copy, object `1`. -/
theorem methodHandler_copy_is_second_instance :
    (run World.init [Op.methodGetInstance, Op.methodCopy]).2.methodStatic =
      some (0, ZegoExpressEngineMethodHandler.new) ∧
    (run World.init [Op.methodGetInstance, Op.methodCopy]).2.methodCopies =
      [(1, ZegoExpressEngineMethodHandler.new)] ∧
    (run World.init [Op.methodGetInstance, Op.methodCopy]).2.methodObjects = [0, 1] := by
  decide

/-- C8: the event handler is not a fixed singleton. From program start the sequence
`getInstance`, `reset` of the returned shared pointer, `getInstance` returns handler `0` and
then a newly constructed handler `1` (the log shows create, destroy, create). In contrast,
over every sequence of operations from every state, all calls of
`ZegoExpressEngineMethodHandler::getInstance` return one and the same instance. -/
theorem eventHandler_not_fixed_singleton :
    eventInstances
        (run World.init [Op.eventGetInstance, Op.eventReset, Op.eventGetInstance]).1 =
      [some 0, some 1] ∧
    (run World.init [Op.eventGetInstance, Op.eventReset, Op.eventGetInstance]).2.cout =
      ["event handler create", "event handler destroy", "event handler create"] ∧
    (run World.init [Op.eventGetInstance, Op.eventReset, Op.eventGetInstance]).2.m_instance =
      some 1 ∧
    (∀ (w : World) (ops : List Op),
      ∃ i n, methodInstances (run w ops).1 = List.replicate n i) := by
  refine ⟨by decide, by decide, by decide, ?_⟩
  intro w ops
  obtain ⟨i, hi⟩ := run_method_same ops w
  exact ⟨i, _, List.eq_replicate_of_mem hi⟩

/-! ## The event sink of a new handler -/

theorem mem_release_handlers (w : World) (h : ObjId)
    (e : ObjId × ZegoExpressEngineEventHandler) (he : e ∈ (w.release h).handlers) :
    e ∈ w.handlers := by
  unfold World.release World.destroy at he
  split at he
  · exact he
  · exact (List.mem_filter.mp he).1

theorem mem_assignSlot_handlers (w : World) (q : Option ObjId)
    (e : ObjId × ZegoExpressEngineEventHandler) (he : e ∈ (w.assignSlot q).handlers) :
    e ∈ w.handlers := by
  unfold World.assignSlot at he
  split at he
  · exact he
  · have hm := mem_release_handlers _ _ e he
    exact hm

theorem sinkFree_construct (w : World) (h : ObjId) (hs : SinkFree w.handlers h) :
    SinkFree w.construct.2.handlers h := by
  intro e he hh
  simp only [World.construct, List.mem_cons] at he
  rcases he with he | he
  · rw [he]
  · exact hs e he hh

theorem sinkFree_updateHandler_clear (w : World) (h k : ObjId) (hs : SinkFree w.handlers h) :
    SinkFree (w.updateHandler k ZegoExpressEngineEventHandler.clearEventSink).handlers h := by
  intro e he hh
  simp only [World.updateHandler, List.mem_map] at he
  obtain ⟨a, ha, rfl⟩ := he
  by_cases hk : a.1 = k
  · simp [hk, ZegoExpressEngineEventHandler.clearEventSink]
  · simp only [hk, if_false] at hh ⊢
    exact hs a ha hh

/-- No operation other than `setEventSink` gives a sink to a handler that has none. -/
theorem step_sinkFree (w : World) (op : Op) (h : ObjId) (hop : op.isSetEventSink = false)
    (hs : SinkFree w.handlers h) : SinkFree (step w op).2.handlers h := by
  cases op <;> simp only [step]
  case eventGetInstance =>
    unfold ZegoExpressEngineEventHandler.getInstance
    simp only
    split
    · intro e he hh
      exact sinkFree_construct w h hs e (mem_assignSlot_handlers _ _ e he) hh
    · exact hs
  case eventReset =>
    intro e he hh
    exact hs e (mem_assignSlot_handlers _ _ e he) hh
  case eventAssignNew =>
    intro e he hh
    exact sinkFree_construct w h hs e (mem_assignSlot_handlers _ _ e he) hh
  case eventHold => split <;> exact hs
  case eventRelease =>
    split
    · intro e he hh
      have hm := mem_release_handlers _ _ e he
      exact hs e hm hh
    · exact hs
  case setEventSink sink => simp [Op.isSetEventSink] at hop
  case clearEventSink =>
    split
    · exact sinkFree_updateHandler_clear w h _ hs
    · exact hs
  case callback => exact hs
  case methodGetInstance =>
    cases hw : w.methodStatic <;>
      simpa [ZegoExpressEngineMethodHandler.getInstance, hw] using hs
  case methodInvoke f =>
    cases hw : w.methodStatic <;>
      simpa [ZegoExpressEngineMethodHandler.getInstance, hw] using hs
  case methodCopy =>
    cases hw : w.methodStatic <;>
      simpa [ZegoExpressEngineMethodHandler.getInstance, hw] using hs

theorem run_sinkFree (ops : List Op) (w : World) (h : ObjId)
    (hops : ∀ op ∈ ops, op.isSetEventSink = false) (hs : SinkFree w.handlers h) :
    SinkFree (run w ops).2.handlers h := by
  induction ops generalizing w with
  | nil => exact hs
  | cons op ops ih =>
    simp only [run]
    exact ih _ (fun o ho => hops o (List.mem_cons_of_mem _ ho))
      (step_sinkFree w op h (hops op (List.mem_cons_self _ _)) hs)

theorem handler_of_sinkFree (w : World) (h : ObjId) (hs : SinkFree w.handlers h) :
    w.handler h = some { eventSink_ := none } ∨ w.handler h = none := by
  unfold World.handler
  cases hf : w.handlers.find? (fun e => e.1 == h) with
  | none => right; rfl
  | some e =>
    left
    have hm : e ∈ w.handlers := List.mem_of_find?_eq_some hf
    have hp : e.1 = h := by simpa using List.find?_some hf
    have := hs e hm hp
    cases e with
    | mk i x =>
      cases x with
      | mk sink =>
        simp only at this
        simp [this]

/-- C9: a newly constructed event handler holds no event sink; in particular the handler
`getInstance` creates when `m_instance` is empty holds none, and it still holds none (for as
long as it is alive) after every sequence of operations that contains no call of
`setEventSink`. -/
theorem new_eventHandler_has_no_sink :
    (∀ w : World, w.construct.2.handler w.construct.1 = some { eventSink_ := none }) ∧
    (∀ w : World, w.m_instance = none →
      (ZegoExpressEngineEventHandler.getInstance w).1 = some w.nextId ∧
      (ZegoExpressEngineEventHandler.getInstance w).2.handler w.nextId =
        some { eventSink_ := none }) ∧
    (∀ (w : World) (ops : List Op), w.WF → w.m_instance = none →
      (∀ op ∈ ops, op.isSetEventSink = false) →
      (run (ZegoExpressEngineEventHandler.getInstance w).2 ops).2.handler w.nextId =
          some { eventSink_ := none } ∨
        (run (ZegoExpressEngineEventHandler.getInstance w).2 ops).2.handler w.nextId =
          none) := by
  refine ⟨?_, ?_, ?_⟩
  · intro w
    simp [World.construct, World.handler]
  · intro w hw
    rw [getInstance_of_none w hw]
    simp [World.handler]
  · intro w ops hwf hw hops
    apply handler_of_sinkFree
    apply run_sinkFree ops _ _ hops
    rw [getInstance_of_none w hw]
    intro e he hh
    simp only [List.mem_cons] at he
    rcases he with he | he
    · rw [he]
    · exact absurd hh (Nat.ne_of_lt (hwf e he))

/-- Witness for C9 at program start: `getInstance` creates handler `0`, which has no sink,
and it has none after `getInstance`, a delivered callback and `clearEventSink`. -/
theorem new_eventHandler_has_no_sink_witness :
    World.init.m_instance = none ∧
    ((ZegoExpressEngineEventHandler.getInstance World.init).1 = some 0 ∧
      (ZegoExpressEngineEventHandler.getInstance World.init).2.handler 0 =
        some { eventSink_ := none }) ∧
    ((run (ZegoExpressEngineEventHandler.getInstance World.init).2
        [Op.eventGetInstance, Op.callback, Op.clearEventSink]).2.handler 0 =
          some { eventSink_ := none } ∨
      (run (ZegoExpressEngineEventHandler.getInstance World.init).2
        [Op.eventGetInstance, Op.callback, Op.clearEventSink]).2.handler 0 = none) :=
  ⟨rfl,
   new_eventHandler_has_no_sink.2.1 World.init rfl,
   new_eventHandler_has_no_sink.2.2 World.init
     [Op.eventGetInstance, Op.callback, Op.clearEventSink]
     (by intro e he; simp [World.init] at he) rfl (by decide)⟩

/-! ## The identifier-to-pointer maps of the method handler -/

/-- C4: for every request that reaches an SDK API and every integer error code the SDK
returns from that call, the error code delivered to the caller through the `MethodResult` is
the SDK's code, unchanged. -/
theorem errorCode_passed_through (h : ZegoExpressEngineMethodHandler) (c : Call)
    (r : SdkReply) (code : Int) (hc : invokesSdk h c = true) (hr : r.errorCode = some code) :
    (deliver h c r).errorCode = some code := by
  simp [deliver, hc, hr]

/-- Witness for C4: `loginRoom` on the initial handler, the SDK answering `1002001`. -/
theorem errorCode_passed_through_witness :
    invokesSdk ZegoExpressEngineMethodHandler.new { method := .loginRoom, id := 0 } = true ∧
    (deliver ZegoExpressEngineMethodHandler.new { method := .loginRoom, id := 0 }
      { errorCode := some 1002001, handle := 0 }).errorCode = some 1002001 :=
  ⟨by decide,
   errorCode_passed_through ZegoExpressEngineMethodHandler.new
     { method := .loginRoom, id := 0 } { errorCode := some 1002001, handle := 0 } 1002001
     (by decide) rfl⟩

/-- C6: the method handler as first returned by `getInstance` (the function-local static
when it is initialised) is the default-constructed one: `audioEffectPlayerMap_` and
`mediaPlayerMap_` are empty, so every identifier is absent, `copyrightedMusic_` is null, and
the "live pointer or absent" invariant holds whatever handles the SDK has. -/
theorem methodHandler_initial_state (w : World) (hw : w.methodStatic = none) :
    (ZegoExpressEngineMethodHandler.getInstance w).2.methodStatic =
      some ((ZegoExpressEngineMethodHandler.getInstance w).1,
            ZegoExpressEngineMethodHandler.new) ∧
    ZegoExpressEngineMethodHandler.new.audioEffectPlayerMap_ = [] ∧
    ZegoExpressEngineMethodHandler.new.mediaPlayerMap_ = [] ∧
    ZegoExpressEngineMethodHandler.new.copyrightedMusic_ = 0 ∧
    (∀ id : Int,
      mapFind ZegoExpressEngineMethodHandler.new.audioEffectPlayerMap_ id = none ∧
      mapFind ZegoExpressEngineMethodHandler.new.mediaPlayerMap_ id = none) ∧
    (∀ sdk : Sdk, Inv { handler := ZegoExpressEngineMethodHandler.new, sdk := sdk }) := by
  refine ⟨?_, rfl, rfl, rfl, fun id => ⟨rfl, rfl⟩, ?_⟩
  · simp [ZegoExpressEngineMethodHandler.getInstance, hw]
  · intro sdk
    constructor <;> intro id p hp <;>
      simp [ZegoExpressEngineMethodHandler.new, mapFind] at hp

/-- Witness for C6 at program start: the first `getInstance` puts the default-constructed
handler, object `0`, in the static. -/
theorem methodHandler_initial_state_witness :
    World.init.methodStatic = none ∧
    (ZegoExpressEngineMethodHandler.getInstance World.init).2.methodStatic =
      some (0, { audioEffectPlayerMap_ := [], mediaPlayerMap_ := [], copyrightedMusic_ := 0 }) :=
  ⟨rfl, (methodHandler_initial_state World.init rfl).1⟩

/-- Of the 80 `on*` members the event handler declares, 79 carry the `override` specifier;
the one without it is `onAudioDeviceVolumeChanged` (header line 93). Whether that member
overrides a virtual of an inherited interface is decided by the SDK header, not by this one. -/
theorem callbacks_override_specifiers :
    ZegoExpressEngineEventHandler.callbacks.length = 80 ∧
    ZegoExpressEngineEventHandler.callbacks.filter (fun d => !d.isOverride) =
      [CallbackDecl.mk 93 "onAudioDeviceVolumeChanged" false] ∧
    ¬ (∀ d ∈ ZegoExpressEngineEventHandler.callbacks, d.isOverride = true) := by
  refine ⟨by decide, by decide, ?_⟩
  intro hall
  exact absurd (hall (CallbackDecl.mk 93 "onAudioDeviceVolumeChanged" false) (by decide))
    (by decide)

end Zego
